import Mathlib

/-!
Shallow embedding of `history_stats.py` (History Statistics sensor).

The sensor derives a `(start, end)` Unix-timestamp window from up to three
templated slots (start, end, duration), queries historical state changes of a
monitored entity inside that window, and integrates the seconds the entity
spent in a target state.

Modelling conventions:
* A rendered template value is a rational number (`float` in the source);
  `math.floor(float(...))` becomes `Int.floor`.
* A configured slot together with the outcome of rendering it this cycle is
  `Option RenderOutcome`: `none` means the slot was not configured
  (`self._start is None` etc.), `some o` means it was configured and its
  render this cycle produced outcome `o`.
* Python exceptions that the source does NOT catch are modelled with
  `Except PyError`; `_LOGGER` calls are side effects with no data flow and
  are not modelled.
-/

deriving instance DecidableEq for Except

attribute [local semireducible] Rat.add Rat.sub Rat.mul Rat.inv

/-- Outcome of rendering one configured template slot in one update cycle:
a numeric value, a `TemplateError` (caught by `handle_template_exception`),
or a `ValueError` from `float(...)` on a non-numeric render. -/
inductive RenderOutcome where
  | ok (v : ℚ)
  | templateErr
  | valueErr
deriving DecidableEq, Repr

/-- Uncaught Python exceptions that can escape the sensor's methods:
`AttributeError` from `None.async_render()` and `TypeError` from arithmetic
on `None` or from `fromtimestamp(None)`. -/
inductive PyError where
  | attributeError
  | typeError
deriving DecidableEq, Repr

/-- The sensor's `_period` attribute: a pair of optional integer timestamps,
`(None, None)` right after `__init__`. -/
abbrev Window := Option Int × Option Int

/-- The three template slots `self._start`, `self._end`, `self._duration`,
each paired with this cycle's render outcome when configured. -/
structure Slots where
  start_ : Option RenderOutcome
  end_ : Option RenderOutcome
  duration : Option RenderOutcome
deriving DecidableEq, Repr

/-- Guarded rendering of the `start`/`end` slots in `update_period`
(lines 178-192): skip when the slot is unconfigured; on success
`math.floor(float(...))`; on `TemplateError` or `ValueError` log and leave
the local variable `None`. (For `duration` the source has no `is not None`
guard; `update_period` handles that case separately.) -/
def renderSlot : Option RenderOutcome → Option Int
  | some (.ok v) => some ⌊v⌋
  | some .templateErr => none
  | some .valueErr => none
  | none => none

/-- Python truthiness of the local `start` in `if end is None and start:`
(line 206): `None` and `0` are falsy. -/
def startTruthy : Option Int → Bool
  | some s => s != 0
  | none => false

/-- Translation of `HistoryStatsSensor.update_period` (lines 173-212).
Returns the new `_period` (the previous `_period` when no branch assigns),
or the uncaught exception: `AttributeError` when the duration fallback is
reached with `self._duration = None`, `TypeError` when the fallback
arithmetic involves a `None` operand. -/
def update_period (slots : Slots) (prev : Window) : Except PyError Window :=
  let start := renderSlot slots.start_
  let end_ := renderSlot slots.end_
  if start.isSome && end_.isSome then
    .ok (start, end_)
  else
    match slots.duration with
    | none => .error .attributeError
    | some d =>
      let duration := renderSlot (some d)
      if end_.isNone && startTruthy start then
        match start, duration with
        | some s, some dv => .ok (some s, some (s + dv))
        | _, _ => .error .typeError
      else if start.isNone then
        match end_, duration with
        | some e, some dv => .ok (some (e - dv), some e)
        | _, _ => .error .typeError
      else
        .ok prev

/-- One state-change event supplied by the history store: the entity's new
state value and `last_changed.timestamp()` (seconds, a float → ℚ). -/
structure StateChangeEvent where
  state : String
  last_changed : ℚ
deriving DecidableEq, Repr

/-- Mutable sensor state touched by `async_update`: `self._period` and
`self.value`. -/
structure SensorState where
  period : Window
  value : ℚ
deriving DecidableEq, Repr

/-- The warm-up grace period constant `WARMING_TIME = 3` (seconds). -/
def WARMING_TIME : ℚ := 3

/-- Initial boundary state (lines 155-156):
`last_state = last_state is not None and last_state == self._entity_state`,
where the scrutinee is the `history.get_state(start, entity_id)` result. -/
def initialLastState : Option String → String → Bool
  | none, _ => false
  | some s, entity_state => s == entity_state

/-- The event loop of `async_update` (lines 161-169): thread
`(last_state, last_time, elapsed)` through the events; when `last_state`
holds, add `current_time - last_time` to `elapsed` before shifting. -/
def sweep (entity_state : String) : Bool → ℚ → ℚ → List StateChangeEvent → ℚ
  | _, _, elapsed, [] => elapsed
  | last_state, last_time, elapsed, item :: rest =>
    let current_state := item.state == entity_state
    let current_time := item.last_changed
    let elapsed' := if last_state then elapsed + (current_time - last_time) else elapsed
    sweep entity_state current_state current_time elapsed' rest

/-- Elapsed-seconds computation of `async_update` (lines 154-169), packaged
with the §4.3 `accumulate` signature: the initial state comes from the
`get_state` lookup, the initial time is the window's start timestamp; the
window's end timestamp is only used to bound the history query and never
enters the elapsed computation. -/
def accumulate (events : List StateChangeEvent) (window : ℚ × ℚ)
    (entity_state : String) (state_at_start : Option String) : ℚ :=
  sweep entity_state (initialLastState state_at_start entity_state) window.1 0 events

/-- Rounding of `round(elapsed / 3600, 2)` (line 171). Python's float
round-half-even tie-breaking is not reproduced (the spec declares the
tie-breaking rule not load-bearing); `round` here rounds to the nearest
multiple of 1/100. -/
def round2 (x : ℚ) : ℚ := (round (x * 100) : ℤ) / 100

/-- Translation of `HistoryStatsSensor.async_update` (lines 135-171).
Inputs fix this cycle's environment: `initTs` is `self._init.timestamp()`,
`nowTs` is `datetime.datetime.now().timestamp()`, `history_list` is the
result the history store would return for
`state_changes_during_period(start, end, entity_id)`, and `state_at_start`
is the `history.get_state(start, entity_id)` result. The
`utcfromtimestamp` calls on lines 141-142 raise `TypeError` when `_period`
still holds `None`; they run BEFORE the warm-up check on line 146. -/
def async_update (slots : Slots) (initTs nowTs : ℚ)
    (history_list : List (String × List StateChangeEvent))
    (entity_id entity_state : String) (state_at_start : Option String)
    (st : SensorState) : Except PyError SensorState :=
  match update_period slots st.period with
  | .error e => .error e
  | .ok period =>
    match period.1, period.2 with
    | some start_timestamp, some end_timestamp =>
      if nowTs < WARMING_TIME + initTs then
        .ok { period := period, value := st.value }
      else
        match List.lookup entity_id history_list with
        | none => .ok { period := period, value := st.value }
        | some events =>
          let elapsed := accumulate events
            ((start_timestamp : ℚ), (end_timestamp : ℚ)) entity_state state_at_start
          .ok { period := period, value := round2 (elapsed / 3600) }
    | _, _ => .error .typeError

/-- Conversion step of `state_attributes` (lines 122-128):
`datetime.datetime.fromtimestamp` raises `TypeError` on `None`. The
`strftime` text rendering of a successfully converted timestamp is not
modelled; the returned integers stand for the datetimes being formatted. -/
def fromtimestamp : Option Int → Except PyError Int
  | none => .error .typeError
  | some t => .ok t

/-- Translation of `HistoryStatsSensor.state_attributes` (lines 122-128):
builds the `start`/`end` attribute pair; evaluating the dict raises as soon
as `fromtimestamp` is applied to a `None` component of `_period`. -/
def state_attributes (p : Window) : Except PyError (Int × Int) :=
  match fromtimestamp p.1, fromtimestamp p.2 with
  | .ok s, .ok e => .ok (s, e)
  | .error er, _ => .error er
  | .ok _, .error er => .error er

/-- Python `str.replace(pat, rep)` on character lists: replace every
non-overlapping occurrence of `pat`, scanning left to right. The fuel
argument bounds the recursion; every step consumes at least one character,
so fuel equal to the input length is exact (when fuel runs out the input is
already empty unless `pat` is empty, and all patterns used are non-empty). -/
def replaceAllFuel (pat rep : List Char) : Nat → List Char → List Char
  | 0, s => s
  | _, [] => []
  | fuel + 1, c :: rest =>
    if pat.isPrefixOf (c :: rest) && !pat.isEmpty then
      rep ++ replaceAllFuel pat rep fuel ((c :: rest).drop pat.length)
    else
      c :: replaceAllFuel pat rep fuel rest

/-- Python `str.replace` entry point: run `replaceAllFuel` with fuel equal
to the input length. -/
def replaceAll (pat rep s : List Char) : List Char :=
  replaceAllFuel pat rep s.length s

/-- Matcher for one atom `\.replace\([a-z]+=[0-9]+\)` of the regex in
`parse_time_expr` (line 226), anchored at the head of the input. On success
returns the captured (field, value) character lists and the rest of the
input; the matched text is exactly
`".replace(" ++ field ++ "=" ++ value ++ ")"`. -/
def matchReplaceCall (s : List Char) : Option ((List Char × List Char) × List Char) :=
  if (".replace(".toList).isPrefixOf s then
    let s1 := s.drop 9
    let field := s1.takeWhile Char.isLower
    if field.isEmpty then none
    else
      match s1.drop field.length with
      | '=' :: s2 =>
        let value := s2.takeWhile Char.isDigit
        if value.isEmpty then none
        else
          match s2.drop value.length with
          | ')' :: s3 => some ((field, value), s3)
          | _ => none
      | _ => none
  else none

/-- Greedy Kleene star over `matchReplaceCall`, as in the regex group
`(\.replace\([a-z]+=[0-9]+\))*`: returns the list of captured (field,
value) pairs and the unconsumed rest. Each successful atom consumes at
least 11 characters, so fuel equal to the input length is exact. -/
def matchReplaceStar : Nat → List Char → List (List Char × List Char) × List Char
  | 0, s => ([], s)
  | fuel + 1, s =>
    match matchReplaceCall s with
    | none => ([], s)
    | some (fv, rest) =>
      match matchReplaceStar fuel rest with
      | (pairs, remainder) => (fv :: pairs, remainder)

/-- Render a list of captured (field, value) pairs back to the matched
`.replace(field=value)` text. -/
def renderCalls : List (List Char × List Char) → List Char
  | [] => []
  | (f, v) :: rest => (".replace(".toList) ++ f ++ '=' :: v ++ ')' :: renderCalls rest

/-- The `re.sub` of `parse_time_expr` (lines 226-229): scan left to right;
at each position where `now()` optionally followed by `.replace(field=int)`
calls matches, emit the match wrapped in `as_timestamp(...)` and continue
after it; otherwise copy the character. Every step consumes at least one
character, so fuel equal to the input length is exact. -/
def subNow : Nat → List Char → List Char
  | 0, s => s
  | _, [] => []
  | fuel + 1, c :: rest =>
    if ("now()".toList).isPrefixOf (c :: rest) then
      let afterNow := (c :: rest).drop 5
      match matchReplaceStar afterNow.length afterNow with
      | (pairs, remainder) =>
        ("as_timestamp(now()".toList) ++ renderCalls pairs ++ ')' :: subNow fuel remainder
    else
      c :: subNow fuel rest

/-- Translation of `parse_time_expr` (lines 223-235): the six sequential
alias substitutions (innermost `str.replace` first), then the regex wrap of
every `now()`-rooted replace chain in `as_timestamp(...)`. -/
def parse_time_expr (str : String) : String :=
  let s1 := replaceAll ("_THIS_YEAR_".toList) ("_THIS_MONTH_.replace(month=1)".toList) str.toList
  let s2 := replaceAll ("_THIS_MONTH_".toList) ("_TODAY_.replace(day=1)".toList) s1
  let s3 := replaceAll ("_TODAY_".toList) ("_THIS_HOUR_.replace(hour=0)".toList) s2
  let s4 := replaceAll ("_THIS_HOUR_".toList) ("_THIS_MINUTE_.replace(minute=0)".toList) s3
  let s5 := replaceAll ("_THIS_MINUTE_".toList) ("_NOW_.replace(second=0)".toList) s4
  let s6 := replaceAll ("_NOW_".toList) ("now()".toList) s5
  (subNow s6.length s6).asString

/-- Parser for the shape "as_timestamp(now()CHAIN)": succeeds exactly when
the whole string is a single `now()`-rooted replace chain wrapped once in
`as_timestamp`, returning the chain's (field, value) pairs. -/
def parseWrappedChain (s : List Char) : Option (List (List Char × List Char)) :=
  if ("as_timestamp(now()".toList).isPrefixOf s then
    let body := s.drop 18
    match matchReplaceStar body.length body with
    | (pairs, [')']) => some pairs
    | _ => none
  else none

/-- Structural equivalence in the sense of the claim: both strings are a
nested replace chain rooted at `now()`, wrapped exactly once in
`as_timestamp`, and they carry the same (field, value) assignments up to
the order of the replace calls. -/
def structEquiv (a b : List Char) : Bool :=
  match parseWrappedChain a, parseWrappedChain b with
  | some pa, some pb => decide (pa.Perm pb)
  | _, _ => false

/-- Modelled from the spec (§4.3): the state threaded through the spec's
interval-integration sweep: `last_state`, `last_time`, `elapsed`. -/
structure SweepState where
  last_state : Bool
  last_time : ℚ
  elapsed : ℚ
deriving DecidableEq, Repr

/-- Modelled from the spec (§4.3): one event step — compute
`current_state = (event.state == target_state)` and
`current_time = event.changed_at`; if `last_state` is true add
`current_time - last_time` to `elapsed`; then shift. -/
def specStep (target_state : String) (st : SweepState) (event : StateChangeEvent) : SweepState :=
  { last_state := event.state == target_state
    last_time := event.last_changed
    elapsed := if st.last_state then st.elapsed + (event.last_changed - st.last_time)
               else st.elapsed }

/-- Modelled from the spec (§4.3): initialize
`last_state = (state_at_window_start == target_state)`,
`last_time = start_ts`, `elapsed = 0`, then fold the events in ascending
order through `specStep` and read off `elapsed`. -/
def specAccumulate (events : List StateChangeEvent) (window : ℚ × ℚ)
    (target_state : String) (state_at_window_start : Option String) : ℚ :=
  (events.foldl (specStep target_state)
    ⟨state_at_window_start == some target_state, window.1, 0⟩).elapsed

/-- Effect of one update cycle on the stored `_period`: `update_period`
writes it only at its three assignment/return points; on fall-through it is
untouched, and an uncaught exception aborts the cycle before any
assignment, also leaving it untouched. -/
def cycleStep (prev : Window) (slots : Slots) : Window :=
  match update_period slots prev with
  | .ok w => w
  | .error _ => prev

/-- The stored `_period` after a sequence of update cycles, starting from
the `__init__` value `self._period = (None, None)` (line 92). -/
def runCycles (cycles : List Slots) : Window :=
  cycles.foldl cycleStep (none, none)

/-- Whether this cycle's configuration and render outcomes let
`update_period` reach one of its three assignments (lines 195, 207, 211):
start and end both resolved; or end unconfigured/unresolved with a truthy
start and a resolved configured duration; or start unresolved with resolved
end and resolved configured duration. -/
def branchTaken (slots : Slots) : Bool :=
  let start := renderSlot slots.start_
  let end_ := renderSlot slots.end_
  (start.isSome && end_.isSome) ||
    (slots.duration.isSome &&
      ((end_.isNone && startTruthy start && (renderSlot slots.duration).isSome) ||
       (start.isNone && end_.isSome && (renderSlot slots.duration).isSome)))

/-- Concrete checks of the embedding against the spec's §8 test vectors and
the documented resolution policy. -/
example : update_period ⟨some (.ok 100), some (.ok 500), none⟩ (none, none)
    = .ok (some 100, some 500) := by decide

example : update_period ⟨none, some (.ok 1000), some (.ok 600)⟩ (none, none)
    = .ok (some 400, some 1000) := by decide

example : update_period ⟨some (.ok 0), none, some (.ok 3600)⟩ (some 1, some 2)
    = .ok (some 1, some 2) := by decide

example : update_period ⟨some (.ok 100), none, some (.ok 3600)⟩ (none, none)
    = .ok (some 100, some 3700) := by decide

example : update_period ⟨some (.ok 100), none, some .templateErr⟩ (none, none)
    = .error .typeError := by decide

example : accumulate [⟨"off", 1800⟩] (0, 3600) "on" (some "on") = 1800 := by decide

example : round2 (1800 / 3600) = 1/2 := by decide

example : async_update ⟨some (.ok 0), some (.ok 3600), none⟩ 0 10
    [("s", [⟨"off", 1800⟩])] "s" "on" (some "on") ⟨(none, none), 0⟩
    = .ok ⟨(some 0, some 3600), 1/2⟩ := by decide

example : async_update ⟨some (.ok 100), some (.ok 500), none⟩ 0 1
    [] "s" "on" none ⟨(none, none), 7⟩
    = .ok ⟨(some 100, some 500), 7⟩ := by decide

example : async_update ⟨some .templateErr, some .templateErr, none⟩ 0 1
    [] "s" "on" none ⟨(none, none), 7⟩
    = .error .attributeError := by decide

example : state_attributes (none, none) = .error .typeError := by decide

example : parse_time_expr "no alias here" = "no alias here" := by decide

/-- Helper: the source's event loop computes the `elapsed` field of the
spec's fold, for every intermediate sweep state. -/
theorem sweep_eq_foldl (target : String) :
    ∀ (events : List StateChangeEvent) (b : Bool) (t a : ℚ),
      sweep target b t a events
        = (events.foldl (specStep target) ⟨b, t, a⟩).elapsed := by
  intro events
  induction events with
  | nil => intro b t a; rfl
  | cons item rest ih =>
    intro b t a
    show sweep target (item.state == target) item.last_changed
        (if b then a + (item.last_changed - t) else a) rest
      = (rest.foldl (specStep target) (specStep target ⟨b, t, a⟩ item)).elapsed
    exact ih (item.state == target) item.last_changed
      (if b then a + (item.last_changed - t) else a)

/-- Helper: the source's boundary-state initialization agrees with the
spec's `state_at_window_start == target_state` on `Option String`. -/
theorem initialLastState_eq_beq (gs : Option String) (target : String) :
    initialLastState gs target = (gs == some target) := by
  cases gs <;> rfl

/-- Helper: with `last_state = false` the sweep never consumes `last_time`,
so its result does not depend on the initial time. -/
theorem sweep_false_time_independent (target : String) :
    ∀ (events : List StateChangeEvent) (t1 t2 a : ℚ),
      sweep target false t1 a events = sweep target false t2 a events := by
  intro events
  induction events with
  | nil => intro t1 t2 a; rfl
  | cons item rest ih => intro t1 t2 a; rfl

/-- Helper: a cycle in which no resolution branch assigns leaves `_period`
unchanged, whatever its previous value. -/
theorem cycleStep_frame (slots : Slots) (prev : Window)
    (h : branchTaken slots = false) : cycleStep prev slots = prev := by
  rcases slots with ⟨sl, el, dl⟩
  simp only [branchTaken, cycleStep, update_period] at h ⊢
  rcases hs : renderSlot sl with _ | s <;> rcases he : renderSlot el with _ | e <;>
    rcases dl with _ | d <;> (try simp_all [startTruthy, renderSlot]) <;>
    (try rcases hd : renderSlot (some d) with _ | dv) <;>
    (try by_cases h0 : s = 0) <;> simp_all

/-- C1: the claim that `update_period` never raises on render failure is
violated by the code: with start and end configured (a valid two-slot
configuration) and the end render failing with a `TemplateError`, the
resolver falls through to the duration fallback and evaluates
`self._duration.async_render()` with `self._duration = None`, raising an
uncaught `AttributeError` instead of degrading and returning normally. -/
theorem update_period_uncaught_attributeError :
    update_period ⟨some (.ok 100), some .templateErr, none⟩ (none, none)
      = .error .attributeError := by decide

/-- C2 counterexample: an update call 1 second after construction — inside
the 3-second warm-up grace period — still runs `update_period` first, so
the stored window changes from `(None, None)` to `(100, 500)`; the claim
that the cycle returns without resolving the window and leaves `_period`
unchanged is false. -/
theorem async_update_warmup_resolves_window_cex :
    ((1 : ℚ) < WARMING_TIME + 0)
    ∧ async_update ⟨some (.ok 100), some (.ok 500), none⟩ 0 1 [] "sensor.test" "on" none
        ⟨(none, none), 0⟩ = .ok ⟨(some 100, some 500), 0⟩
    ∧ (((some 100, some 500) : Window) ≠ ((none, none) : Window)) := by decide

/-- C2 (amended): during the warm-up grace period the update cycle does
return before consulting the history store — its outcome is independent of
the history and `get_state` inputs — and leaves the reported value
unchanged; but the window has already been resolved: `update_period` ran
first, so the stored `_period` is exactly what `update_period` returned
for this cycle. -/
theorem async_update_warmup_suppresses_history_only
    (slots : Slots) (initTs nowTs : ℚ)
    (h1 h2 : List (String × List StateChangeEvent)) (eid es : String)
    (gs1 gs2 : Option String) (st : SensorState)
    (hw : nowTs < WARMING_TIME + initTs) :
    async_update slots initTs nowTs h1 eid es gs1 st
        = async_update slots initTs nowTs h2 eid es gs2 st
    ∧ ∀ st2, async_update slots initTs nowTs h1 eid es gs1 st = .ok st2 →
        st2.value = st.value ∧ update_period slots st.period = .ok st2.period := by
  simp only [async_update]
  cases hup : update_period slots st.period with
  | error e => exact ⟨rfl, fun st2 hc => by cases hc⟩
  | ok period =>
    rcases period with ⟨p1, p2⟩
    rcases p1 with _ | a
    · exact ⟨rfl, fun st2 hc => by cases hc⟩
    · rcases p2 with _ | b
      · exact ⟨rfl, fun st2 hc => by cases hc⟩
      · constructor
        · simp [hw]
        · intro st2 hc
          simp [hw] at hc
          subst hc
          exact ⟨rfl, rfl⟩

theorem async_update_warmup_suppresses_history_only_witness :
    async_update ⟨some (.ok 100), some (.ok 500), none⟩ 0 1
        [("sensor.test", [⟨"on", 200⟩])] "sensor.test" "on" (some "on") ⟨(none, none), 7⟩
      = async_update ⟨some (.ok 100), some (.ok 500), none⟩ 0 1 [] "sensor.test" "on" none
        ⟨(none, none), 7⟩ :=
  (async_update_warmup_suppresses_history_only _ 0 1 _ _ _ _ _ _ _ (by decide)).1

/-- C3: the elapsed-seconds computation equals the spec's stated sweep
(initialize `last_state = (state_at_window_start == target_state)`,
`last_time = start_ts`, `elapsed = 0`; per event add
`current_time - last_time` when `last_state` holds, then shift), and the
open trailing segment up to `end_ts` is never added: the result does not
depend on `end_ts` at all. -/
theorem accumulate_matches_spec_sweep :
    ∀ (events : List StateChangeEvent) (start_ts end_ts end_ts' : ℚ)
      (target : String) (state_at_start : Option String),
      accumulate events (start_ts, end_ts) target state_at_start
          = specAccumulate events (start_ts, end_ts) target state_at_start
      ∧ accumulate events (start_ts, end_ts) target state_at_start
          = accumulate events (start_ts, end_ts') target state_at_start := by
  intro events start_ts end_ts end_ts' target gs
  refine ⟨?_, rfl⟩
  show sweep target (initialLastState gs target) start_ts 0 events
      = (events.foldl (specStep target) ⟨gs == some target, start_ts, 0⟩).elapsed
  rw [initialLastState_eq_beq gs target]
  exact sweep_eq_foldl target events (gs == some target) start_ts 0

/-- C4: start unresolved while end and duration render to numeric values →
the resolver assigns `_period = (end - duration, end)` on the floored
values. -/
theorem update_period_end_minus_duration
    (slots : Slots) (prev : Window) (e d : ℚ)
    (hs : renderSlot slots.start_ = none)
    (he : slots.end_ = some (.ok e))
    (hd : slots.duration = some (.ok d)) :
    update_period slots prev = .ok (some (⌊e⌋ - ⌊d⌋), some ⌊e⌋) := by
  simp [update_period, hs, he, hd, startTruthy,
    (show renderSlot (some (RenderOutcome.ok e)) = some ⌊e⌋ from rfl),
    (show renderSlot (some (RenderOutcome.ok d)) = some ⌊d⌋ from rfl)]

theorem update_period_end_minus_duration_witness :
    update_period ⟨none, some (.ok 1000), some (.ok 600)⟩ (none, none)
      = .ok (some 400, some 1000) := by
  have h := update_period_end_minus_duration ⟨none, some (.ok 1000), some (.ok 600)⟩
    (none, none) 1000 600 rfl rfl rfl
  rwa [show (⌊(1000 : ℚ)⌋ - ⌊(600 : ℚ)⌋ : ℤ) = 400 by decide,
       show (⌊(1000 : ℚ)⌋ : ℤ) = 1000 by decide] at h

/-- C5: when both start and end render to numeric values the resolver
assigns `_period = (floor start, floor end)` and returns before the
duration slot is ever evaluated: the result is invariant under replacing
the duration slot by anything. -/
theorem update_period_start_end_priority
    (slots slots2 : Slots) (prev : Window) (s e : ℚ)
    (hs : slots.start_ = some (.ok s)) (he : slots.end_ = some (.ok e))
    (hs2 : slots2.start_ = slots.start_) (he2 : slots2.end_ = slots.end_) :
    update_period slots prev = .ok (some ⌊s⌋, some ⌊e⌋)
    ∧ update_period slots2 prev = update_period slots prev := by
  have hA : update_period slots prev = .ok (some ⌊s⌋, some ⌊e⌋) := by
    simp [update_period, hs, he,
      (show renderSlot (some (RenderOutcome.ok s)) = some ⌊s⌋ from rfl),
      (show renderSlot (some (RenderOutcome.ok e)) = some ⌊e⌋ from rfl)]
  have hB : update_period slots2 prev = .ok (some ⌊s⌋, some ⌊e⌋) := by
    simp [update_period, hs2, he2, hs, he,
      (show renderSlot (some (RenderOutcome.ok s)) = some ⌊s⌋ from rfl),
      (show renderSlot (some (RenderOutcome.ok e)) = some ⌊e⌋ from rfl)]
  exact ⟨hA, hB.trans hA.symm⟩

theorem update_period_start_end_priority_witness :
    update_period ⟨some (.ok 100), some (.ok 500), none⟩ (none, none)
        = .ok (some 100, some 500)
    ∧ update_period ⟨some (.ok 100), some (.ok 500), some (.ok 777)⟩ (none, none)
        = update_period ⟨some (.ok 100), some (.ok 500), none⟩ (none, none) := by
  have h := update_period_start_end_priority ⟨some (.ok 100), some (.ok 500), none⟩
    ⟨some (.ok 100), some (.ok 500), some (.ok 777)⟩ (none, none) 100 500 rfl rfl rfl rfl
  rwa [show (⌊(100 : ℚ)⌋ : ℤ) = 100 by decide,
       show (⌊(500 : ℚ)⌋ : ℤ) = 500 by decide] at h

/-- C6: start rendering to the falsy sentinel 0 with end unresolved matches
none of the three resolution branches, whatever the configured duration
slot renders to; the resolver falls through and `_period` keeps its
previous value. -/
theorem update_period_falsy_start_keeps_previous
    (slots : Slots) (prev : Window) (s : ℚ) (d : RenderOutcome)
    (hs : slots.start_ = some (.ok s)) (hs0 : ⌊s⌋ = 0)
    (he : renderSlot slots.end_ = none)
    (hd : slots.duration = some d) :
    update_period slots prev = .ok prev := by
  simp [update_period, hs, he, hd, startTruthy, hs0,
    (show renderSlot (some (RenderOutcome.ok s)) = some ⌊s⌋ from rfl)]

theorem update_period_falsy_start_keeps_previous_witness :
    update_period ⟨some (.ok 0), none, some (.ok 3600)⟩ (some 1, some 2)
      = .ok (some 1, some 2) :=
  update_period_falsy_start_keeps_previous _ _ 0 (.ok 3600) rfl (by decide) rfl rfl

/-- C7: when the history lookup returns the monitored entity with an empty
event sequence, the loop never runs, elapsed stays 0, and the reported
value is set to 0 hours — whatever the state at the window start was. -/
theorem async_update_empty_events_zero_value
    (slots : Slots) (initTs nowTs : ℚ)
    (hist : List (String × List StateChangeEvent)) (eid es : String)
    (gs : Option String) (st : SensorState) (a b : ℤ)
    (hup : update_period slots st.period = .ok (some a, some b))
    (hw : ¬ nowTs < WARMING_TIME + initTs)
    (hh : List.lookup eid hist = some []) :
    async_update slots initTs nowTs hist eid es gs st = .ok ⟨(some a, some b), 0⟩ := by
  simp only [async_update, hup, if_neg hw, hh]
  have hz : round2 (accumulate [] ((a : ℚ), (b : ℚ)) es gs / 3600) = 0 := by
    show round2 (sweep es (initialLastState gs es) (a : ℚ) 0 [] / 3600) = 0
    show round2 (0 / 3600) = 0
    decide
  rw [hz]

theorem async_update_empty_events_zero_value_witness :
    async_update ⟨some (.ok 0), some (.ok 3600), none⟩ 0 10 [("sensor.test", [])]
        "sensor.test" "on" (some "on") ⟨(none, none), 5⟩
      = .ok ⟨(some 0, some 3600), 0⟩ :=
  async_update_empty_events_zero_value _ 0 10 _ _ _ _ _ 0 3600
    (by decide) (by decide) (by decide)

/-- C8: expanding `"_TODAY_"` yields
`"as_timestamp(now().replace(second=0).replace(minute=0).replace(hour=0))"`,
which is structurally equivalent to
`"as_timestamp(now().replace(hour=0).replace(minute=0).replace(second=0))"`:
a nested replace chain rooted at `now()`, wrapped exactly once in
`as_timestamp`, with the fields hour, minute, second each set to 0. -/
theorem parse_time_expr_today_structure :
    parse_time_expr "_TODAY_"
        = "as_timestamp(now().replace(second=0).replace(minute=0).replace(hour=0))"
    ∧ structEquiv (parse_time_expr "_TODAY_").toList
        ("as_timestamp(now().replace(hour=0).replace(minute=0).replace(second=0))".toList)
        = true := by
  exact ⟨by decide, by decide⟩

/-- C9: from construction until the first cycle whose render outcomes let a
resolution branch assign the window, the stored `_period` remains
`(None, None)`, and `state_attributes` raises (`fromtimestamp` applied to
`None`) instead of returning formatted start/end strings. -/
theorem period_none_until_first_assignment
    (cycles : List Slots) (h : ∀ s ∈ cycles, branchTaken s = false) :
    runCycles cycles = (none, none)
    ∧ state_attributes (none, none) = .error .typeError := by
  refine ⟨?_, rfl⟩
  induction cycles with
  | nil => rfl
  | cons c cs ih =>
    show List.foldl cycleStep (cycleStep (none, none) c) cs = (none, none)
    rw [cycleStep_frame c (none, none) (h c (List.mem_cons_self c cs))]
    exact ih fun s hs => h s (List.mem_cons_of_mem c hs)

theorem period_none_until_first_assignment_witness :
    runCycles [⟨some (.ok 0), none, some (.ok 5)⟩, ⟨some .templateErr, some .valueErr, none⟩]
        = (none, none)
    ∧ state_attributes (none, none) = .error .typeError :=
  period_none_until_first_assignment _ (by decide)

/-- C10: when `get_state` reports no state at or before the window start,
the initial boundary state is "not in target state" for every target, and
the segment from the window start to the first event contributes nothing:
the elapsed seconds do not depend on the window start at all. -/
theorem accumulate_none_initial_state :
    ∀ (events : List StateChangeEvent) (s1 s2 e1 e2 : ℚ) (target : String),
      initialLastState none target = false
      ∧ accumulate events (s1, e1) target none = accumulate events (s2, e2) target none := by
  intro events s1 s2 e1 e2 target
  refine ⟨rfl, ?_⟩
  show sweep target (initialLastState none target) s1 0 events
      = sweep target (initialLastState none target) s2 0 events
  exact sweep_false_time_independent target events s1 s2 0
